import Mathlib

/-
  Shallow embedding of the Gmail-Automation-Tool repository (src/app.py,
  class GmailAutomation).  The selenium browser driver is modelled by an
  oracle `Env` that answers every driver query (selector resolution,
  keystroke delivery, click success, waits); `none` answers model a raised
  selenium exception.  Every driver call emits an `Ev` event, so each
  operation returns its event trace next to its result.  Python `raise` /
  `try/except` is modelled with `Except String`, caught exactly where the
  source catches.  Timing calls (`human_delay`, waits for fixed durations)
  have no observable effect in the model and are omitted.
-/

namespace GmailAuto

/-- Selenium locator strategies used by the source (`By.ID`,
`By.CSS_SELECTOR`, `By.XPATH`). -/
inductive Locator where
  | id (s : String)
  | css (s : String)
  | xpath (s : String)
  deriving Repr, DecidableEq

/-- Observable driver events emitted by the automation code. -/
inductive Ev where
  | get (url : String)
  | waitVisible (scope : Option Nat) (sel : String) (res : Option Nat)
  | waitClickable (scope : Option Nat) (loc : Locator) (res : Option Nat)
  | waitPresence (loc : Locator) (ok : Bool)
  | waitInvisible (sel : String) (ok : Bool)
  | click (loc : Locator) (elem : Nat) (ok : Bool)
  | clearKeys (elem : Nat)
  | sendChar (elem : Nat) (c : Char)
  | sendBulk (elem : Nat) (s : String)
  | readValue (elem : Nat) (s : String)
  | screenshot (file : String)
  | deleteCookies
  | attemptStart (kind : String) (i total : Nat)
  | log (msg : String)
  | findElement (sel : String) (res : Option Nat)
  | quit (elem : Nat)
  deriving Repr, DecidableEq

/-- Page state: the text content of each field element, by element id. -/
structure Page where
  content : Nat → String

/-- The empty page: every field empty. -/
def page0 : Page := ⟨fun _ => ""⟩

/-- Overwrite the content of element `e`. -/
def setContent (e : Nat) (s : String) (p : Page) : Page :=
  ⟨fun n => if n = e then s else p.content n⟩

/-- The browser/driver oracle.  `none` results model a raised selenium
exception (timeout, stale element, WebDriverException, ...).  Keystroke
oracles take the current field content and return the content after the
keystroke, so lossy or misbehaving fields are expressible. -/
structure Env where
  navOk : String → Bool
  currentUrl : String → String
  resolveVisible : Option Nat → String → Option Nat
  resolveClickable : Option Nat → Locator → Option Nat
  presenceOk : Locator → Bool
  invisibleOk : String → Bool
  clickOk : Nat → Bool
  clearField : Nat → String → Option String
  typeChar : Nat → String → Char → Option String
  typeBulk : Nat → String → String → Option String
  findClose : Option Nat
  quitRaises : Bool
  screenshotRaises : Bool
  cookiesRaises : Bool

/-- Python `needle in hay` substring test, on char lists. -/
def startsWithL : List Char → List Char → Bool
  | _, [] => true
  | [], _ :: _ => false
  | c :: cs, d :: ds => c == d && startsWithL cs ds

/-- Python `needle in hay` substring test. -/
def hasSub : List Char → List Char → Bool
  | [], needle => needle.isEmpty
  | c :: cs, needle => startsWithL (c :: cs) needle || hasSub cs needle

/-- Python `needle in hay` on strings. -/
def containsSub (hay needle : String) : Bool :=
  hasSub hay.toList needle.toList

/-- Python `s.strip()`: drop leading and trailing whitespace. -/
def pyStrip (s : String) : String :=
  ⟨((s.toList.dropWhile Char.isWhitespace).reverse.dropWhile
      Char.isWhitespace).reverse⟩

/-- Python `s.startswith(pre)`. -/
def pyStartsWith (s pre : String) : Bool :=
  startsWithL s.toList pre.toList

/-- `clear_field` (app.py lines 100-104): send CTRL+A then DELETE to the
element; the oracle decides the resulting content, `none` meaning the
keystroke call raised.  The trailing `human_delay` is timing only. -/
def clear_field (env : Env) (e : Nat) (p : Page) :
    Page × List Ev × Except String Unit :=
  match env.clearField e (p.content e) with
  | some c => (setContent e c p, [Ev.clearKeys e], Except.ok ())
  | none => (p, [Ev.clearKeys e], Except.error "keystroke error")

/-- The per-character loop of `human_type` (app.py lines 85-87):
`element.send_keys(char)` for each char, with a human delay between. -/
def typeChars (env : Env) (e : Nat) : List Char → Page →
    Page × List Ev × Except String Unit
  | [], p => (p, [], Except.ok ())
  | c :: cs, p =>
    match env.typeChar e (p.content e) c with
    | none => (p, [Ev.sendChar e c], Except.error "keystroke error")
    | some nc =>
      let r := typeChars env e cs (setContent e nc p)
      (r.1, Ev.sendChar e c :: r.2.1, r.2.2)

/-- `human_type` (app.py lines 81-98): clear the field, type `text` one
character at a time, read the content back and compare trimmed; on
mismatch clear and retype the whole string once with a single bulk
`send_keys`; return `true` unless some driver call raised, in which case
the exception is caught and `false` returned.  The read-back uses the
value attribute (the `element.text` branch is for `field_name == "body"`,
which no caller ever passes); both are modelled as reading the field
content. -/
def human_type (env : Env) (e : Nat) (text fieldName : String) (p : Page) :
    Page × List Ev × Bool :=
  match clear_field env e p with
  | (p1, evs0, Except.error _) => (p1, evs0, false)
  | (p1, evs0, Except.ok ()) =>
    match typeChars env e text.toList p1 with
    | (p2, evs1, Except.error _) => (p2, evs0 ++ evs1, false)
    | (p2, evs1, Except.ok ()) =>
      let entered := p2.content e
      let evs2 := evs0 ++ evs1 ++ [Ev.readValue e entered]
      if pyStrip entered ≠ pyStrip text then
        let evs3 := evs2 ++ [Ev.log ("Text mismatch in " ++ fieldName ++ ", retrying...")]
        match clear_field env e p2 with
        | (p3, evs4, Except.error _) => (p3, evs3 ++ evs4, false)
        | (p3, evs4, Except.ok ()) =>
          match env.typeBulk e (p3.content e) text with
          | none => (p3, evs3 ++ evs4 ++ [Ev.sendBulk e text], false)
          | some nc =>
            (setContent e nc p3, evs3 ++ evs4 ++ [Ev.sendBulk e text], true)
      else (p2, evs2, true)

/-- The `for selector in [...]` fallback loop used for the email, password,
recipient and subject fields (e.g. app.py lines 132-146): wait for the
selector to be visible (a raise is swallowed and the next candidate
tried), then `human_type` into it; only a candidate whose element both
resolves and is typed into successfully ends the loop.  Returns the
element the text was entered into, `none` when the cascade is exhausted. -/
def typeCascade (env : Env) (scope : Option Nat) (text fieldName : String) :
    List String → Page → Page × List Ev × Option Nat
  | [], p => (p, [], none)
  | sel :: rest, p =>
    match env.resolveVisible scope sel with
    | none =>
      let r := typeCascade env scope text fieldName rest p
      (r.1, Ev.waitVisible scope sel none :: r.2.1, r.2.2)
    | some e =>
      match human_type env e text fieldName p with
      | (p1, evs, true) =>
        (p1, Ev.waitVisible scope sel (some e) :: evs, some e)
      | (p1, evs, false) =>
        let r := typeCascade env scope text fieldName rest p1
        (r.1, (Ev.waitVisible scope sel (some e) :: evs) ++ r.2.1, r.2.2)

/-- The `for locator in [...]` fallback loop used for the next and submit
buttons (app.py lines 158-174 and 204-220): wait for the locator to be
clickable and click it; any raise is swallowed and the next candidate
tried.  Returns the clicked element, `none` when exhausted. -/
def clickCascade (env : Env) (scope : Option Nat) :
    List Locator → List Ev × Option Nat
  | [] => ([], none)
  | loc :: rest =>
    match env.resolveClickable scope loc with
    | none =>
      let r := clickCascade env scope rest
      (Ev.waitClickable scope loc none :: r.1, r.2)
    | some e =>
      if env.clickOk e then
        ([Ev.waitClickable scope loc (some e), Ev.click loc e true], some e)
      else
        let r := clickCascade env scope rest
        (Ev.waitClickable scope loc (some e) :: Ev.click loc e false :: r.1, r.2)

/-- The `for url in urls` loop of `login_to_gmail` (app.py lines 119-129):
`driver.get(url)`, wait for the page load, then break if the current url
contains one of the expected hosts; the for-else raises when the list is
exhausted. -/
def loadGmail (env : Env) : List String → List Ev × Except String Unit
  | [] => ([], Except.error "Could not load Gmail login page")
  | url :: rest =>
    if env.navOk url then
      let cur := env.currentUrl url
      if containsSub cur "google.com/accounts" || containsSub cur "mail.google.com" then
        ([Ev.get url], Except.ok ())
      else
        let r := loadGmail env rest
        (Ev.get url :: r.1, r.2)
    else
      let r := loadGmail env rest
      (Ev.get url :: r.1, r.2)

/-- The login entry urls (app.py lines 113-117). -/
def urls : List String :=
  ["https://mail.google.com",
   "https://accounts.google.com/ServiceLogin?service=mail",
   "https://accounts.google.com/v3/signin/identifier?service=mail"]

/-- Email field selector candidates (app.py lines 133-138). -/
def emailSelectors : List String :=
  ["input[type=\"email\"]",
   "input[identifier=\"Email\"]",
   "#identifierId",
   "input[name=\"identifier\"]"]

/-- Next button locator candidates (app.py lines 152-156). -/
def nextButtons : List Locator :=
  [Locator.id "identifierNext",
   Locator.css "button[data-primary-action=\"true\"]",
   Locator.xpath "//span[text()=\"Next\"]"]

/-- Password field selector candidates (app.py lines 180-184). -/
def passwordSelectors : List String :=
  ["input[type=\"password\"]",
   "input[name=\"Passwd\"]",
   "#password input"]

/-- Submit button locator candidates (app.py lines 198-202). -/
def submitButtons : List Locator :=
  [Locator.id "passwordNext",
   Locator.css "button[data-primary-action=\"true\"]",
   Locator.xpath "//span[text()=\"Next\"]"]

/-- The post-login landmark and compose button locator
(app.py lines 226 and 247). -/
def composeLocator : Locator := Locator.xpath "//div[text()=\"Compose\"]"

/-- One iteration body of the login attempt loop (app.py lines 109-228),
the part inside `try`: load the page, enter the email, click next, enter
the password, click submit, wait for the Compose landmark.  A `raise` is
an `Except.error` carrying the message of the RuntimeError (for the wait
timeout we use the exception class name, `TimeoutException`). -/
def loginAttempt (env : Env) (email password : String) (p : Page) :
    Page × List Ev × Except String Unit :=
  match loadGmail env urls with
  | (evs0, Except.error m) => (p, evs0, Except.error m)
  | (evs0, Except.ok ()) =>
    match typeCascade env none email "email" emailSelectors p with
    | (p1, evs1, none) =>
      (p1, evs0 ++ evs1, Except.error "Could not enter email address")
    | (p1, evs1, some _) =>
      match clickCascade env none nextButtons with
      | (evs2, none) =>
        (p1, evs0 ++ evs1 ++ evs2, Except.error "Could not click next button")
      | (evs2, some _) =>
        match typeCascade env none password "password" passwordSelectors p1 with
        | (p2, evs3, none) =>
          (p2, evs0 ++ evs1 ++ evs2 ++ evs3, Except.error "Could not enter password")
        | (p2, evs3, some _) =>
          match clickCascade env none submitButtons with
          | (evs4, none) =>
            (p2, evs0 ++ evs1 ++ evs2 ++ evs3 ++ evs4,
             Except.error "Could not submit login")
          | (evs4, some _) =>
            if env.presenceOk composeLocator then
              (p2, evs0 ++ evs1 ++ evs2 ++ evs3 ++ evs4 ++
                    [Ev.waitPresence composeLocator true, Ev.log "Login successful"],
               Except.ok ())
            else
              (p2, evs0 ++ evs1 ++ evs2 ++ evs3 ++ evs4 ++
                    [Ev.waitPresence composeLocator false],
               Except.error "TimeoutException")

/-- The `for attempt in range(1, max_attempts + 1)` loop of
`login_to_gmail` (app.py lines 108-237), with the remaining iteration
count as fuel and the source final-attempt test `attempt == max_attempts`.
Falling off the loop (fuel exhausted) returns `Except.ok none`, the Python
implicit `None`.  The driver calls made inside the `except` handler run
outside any `try`: `driver.save_screenshot` on the final attempt (line
233) and `driver.delete_all_cookies` between attempts (line 236) may
themselves raise, and that exception propagates to the caller — hence the
`Except.error` results. -/
def loginLoop (env : Env) (email password : String) (maxAttempts : Nat) :
    Nat → Nat → Page → Page × List Ev × Except String (Option Bool)
  | 0, _, p => (p, [], Except.ok none)
  | remaining + 1, attempt, p =>
    let hd := Ev.attemptStart "login" attempt maxAttempts
    match loginAttempt env email password p with
    | (p1, evs, Except.ok ()) => (p1, hd :: evs, Except.ok (some true))
    | (p1, evs, Except.error m) =>
      let fevs := [Ev.log ("Login attempt " ++ toString attempt ++ " failed: " ++ m)]
      if attempt == maxAttempts then
        if env.screenshotRaises then
          (p1, hd :: evs ++ fevs ++ [Ev.screenshot "login_failure.png"],
           Except.error "WebDriverException")
        else
          (p1, hd :: evs ++ fevs ++ [Ev.screenshot "login_failure.png"],
           Except.ok (some false))
      else
        if env.cookiesRaises then
          (p1, hd :: evs ++ fevs ++ [Ev.deleteCookies],
           Except.error "WebDriverException")
        else
          let r := loginLoop env email password maxAttempts remaining (attempt + 1) p1
          (r.1, hd :: evs ++ fevs ++ Ev.deleteCookies :: r.2.1, r.2.2)

/-- `login_to_gmail` (app.py lines 106-237). -/
def login_to_gmail (env : Env) (email password : String)
    (maxAttempts : Nat := 3) (p : Page) :
    Page × List Ev × Except String (Option Bool) :=
  loginLoop env email password maxAttempts maxAttempts 1 p

/-- The compose dialog selector (app.py line 253). -/
def dialogSelector : String := "div[role=\"dialog\"]"

/-- Recipient field selector candidates (app.py lines 258-263). -/
def recipientSelectors : List String :=
  ["input[aria-label=\"To\"]",
   "input[peoplekit-id=\"BbVjBd\"]",
   "textarea[name=\"to\"]",
   "input[type=\"text\"][aria-label=\"To\"]"]

/-- Subject field selector candidates (app.py lines 279-284). -/
def subjectSelectors : List String :=
  ["input[name=\"subjectbox\"]",
   "input[aria-label=\"Subject\"]",
   "input[placeholder=\"Subject\"]",
   "input[name=\"subject\"]"]

/-- Body field selector candidates (app.py lines 300-305). -/
def bodySelectors : List String :=
  ["div[aria-label=\"Message Body\"]",
   "div[role=\"textbox\"]",
   "div[g_editable=\"true\"]",
   "div[aria-label=\"Message Body\"] > div"]

/-- Send button selector candidates (app.py lines 323-328); candidates
starting with `//` are used as XPATH, the rest as CSS (line 330). -/
def sendSelectors : List String :=
  ["div[aria-label*=\"Send\"]",
   "div[role=\"button\"][aria-label*=\"Send\"]",
   "//div[text()=\"Send\"]",
   "div[guidedhelpid=\"send_button\"]"]

/-- Selector-to-locator choice of the send cascade (app.py line 330). -/
def sendLocator (sel : String) : Locator :=
  if pyStartsWith sel "//" then Locator.xpath sel else Locator.css sel

/-- The close-button selector used when retrying send
(app.py line 362). -/
def closeSelector : String := "div[aria-label*=\"Close\"]"

/-- Body field fallback loop (app.py lines 299-316): wait visible, click
the element, then one plain `send_keys(body)` (no per-character typing, no
verification); any raise is swallowed and the next candidate tried. -/
def bodyCascade (env : Env) (dlg : Nat) (body : String) :
    List String → Page → Page × List Ev × Option Nat
  | [], p => (p, [], none)
  | sel :: rest, p =>
    match env.resolveVisible (some dlg) sel with
    | none =>
      let r := bodyCascade env dlg body rest p
      (r.1, Ev.waitVisible (some dlg) sel none :: r.2.1, r.2.2)
    | some e =>
      if env.clickOk e then
        match env.typeBulk e (p.content e) body with
        | some nc =>
          (setContent e nc p,
           [Ev.waitVisible (some dlg) sel (some e), Ev.click (Locator.css sel) e true,
            Ev.sendBulk e body], some e)
        | none =>
          let r := bodyCascade env dlg body rest p
          (r.1, Ev.waitVisible (some dlg) sel (some e) ::
                Ev.click (Locator.css sel) e true :: Ev.sendBulk e body :: r.2.1, r.2.2)
      else
        let r := bodyCascade env dlg body rest p
        (r.1, Ev.waitVisible (some dlg) sel (some e) ::
              Ev.click (Locator.css sel) e false :: r.2.1, r.2.2)

/-- Send button fallback loop (app.py lines 322-342): wait clickable
(XPATH for candidates starting with `//`, else CSS) in the dialog scope
and click; any raise is swallowed and the next candidate tried. -/
def sendCascade (env : Env) (dlg : Nat) : List String → List Ev × Option Nat
  | [] => ([], none)
  | sel :: rest =>
    let loc := sendLocator sel
    match env.resolveClickable (some dlg) loc with
    | none =>
      let r := sendCascade env dlg rest
      (Ev.waitClickable (some dlg) loc none :: r.1, r.2)
    | some e =>
      if env.clickOk e then
        ([Ev.waitClickable (some dlg) loc (some e), Ev.click loc e true], some e)
      else
        let r := sendCascade env dlg rest
        (Ev.waitClickable (some dlg) loc (some e) :: Ev.click loc e false :: r.1, r.2)

/-- One iteration body of the send attempt loop (app.py lines 242-352),
the part inside `try`: click Compose, wait for the dialog, fill recipient,
subject and body, click send, wait for the dialog to disappear. -/
def composeAttempt (env : Env) (recipient subject body : String) (p : Page) :
    Page × List Ev × Except String Unit :=
  match env.resolveClickable none composeLocator with
  | none =>
    (p, [Ev.waitClickable none composeLocator none], Except.error "TimeoutException")
  | some cb =>
    if env.clickOk cb then
      let evs0 := [Ev.waitClickable none composeLocator (some cb),
                   Ev.click composeLocator cb true]
      match env.resolveVisible none dialogSelector with
      | none =>
        (p, evs0 ++ [Ev.waitVisible none dialogSelector none],
         Except.error "TimeoutException")
      | some dlg =>
        let evs1 := evs0 ++ [Ev.waitVisible none dialogSelector (some dlg)]
        match typeCascade env (some dlg) recipient "recipient" recipientSelectors p with
        | (p1, evsR, none) =>
          (p1, evs1 ++ evsR, Except.error "Could not fill recipient field")
        | (p1, evsR, some _) =>
          match typeCascade env (some dlg) subject "subject" subjectSelectors p1 with
          | (p2, evsS, none) =>
            (p2, evs1 ++ evsR ++ evsS, Except.error "Could not fill subject field")
          | (p2, evsS, some _) =>
            match bodyCascade env dlg body bodySelectors p2 with
            | (p3, evsB, none) =>
              (p3, evs1 ++ evsR ++ evsS ++ evsB,
               Except.error "Could not fill body field")
            | (p3, evsB, some _) =>
              match sendCascade env dlg sendSelectors with
              | (evsD, none) =>
                (p3, evs1 ++ evsR ++ evsS ++ evsB ++ evsD,
                 Except.error "Could not click send button")
              | (evsD, some _) =>
                if env.invisibleOk dialogSelector then
                  (p3, evs1 ++ evsR ++ evsS ++ evsB ++ evsD ++
                        [Ev.waitInvisible dialogSelector true,
                         Ev.log "Email sent successfully"],
                   Except.ok ())
                else
                  (p3, evs1 ++ evsR ++ evsS ++ evsB ++ evsD ++
                        [Ev.waitInvisible dialogSelector false],
                   Except.error "TimeoutException")
    else
      (p, [Ev.waitClickable none composeLocator (some cb),
           Ev.click composeLocator cb false],
       Except.error "WebDriverException")

/-- Best-effort close of a stuck compose dialog between send attempts
(app.py lines 361-366): a bare `find_element` for the close button, then a
click; every raise is swallowed. -/
def tryCloseDialog (env : Env) : List Ev :=
  match env.findClose with
  | none => [Ev.findElement closeSelector none]
  | some e =>
    [Ev.findElement closeSelector (some e),
     Ev.click (Locator.css closeSelector) e (env.clickOk e)]

/-- The `for attempt in range(1, max_attempts + 1)` loop of
`compose_and_send_email` (app.py lines 241-368), fuel style as
`loginLoop`.  `driver.save_screenshot` on the final attempt (line 357)
runs outside any `try` and may raise, propagating to the caller; the
stuck-dialog closer between attempts is itself wrapped in `try/except
pass` and cannot propagate. -/
def sendLoop (env : Env) (recipient subject body : String) (maxAttempts : Nat) :
    Nat → Nat → Page → Page × List Ev × Except String (Option Bool)
  | 0, _, p => (p, [], Except.ok none)
  | remaining + 1, attempt, p =>
    let hd := Ev.attemptStart "send" attempt maxAttempts
    match composeAttempt env recipient subject body p with
    | (p1, evs, Except.ok ()) => (p1, hd :: evs, Except.ok (some true))
    | (p1, evs, Except.error m) =>
      let fevs := [Ev.log ("Email sending attempt " ++ toString attempt ++ " failed: " ++ m)]
      if attempt == maxAttempts then
        if env.screenshotRaises then
          (p1, hd :: evs ++ fevs ++ [Ev.screenshot "send_email_failure.png"],
           Except.error "WebDriverException")
        else
          (p1, hd :: evs ++ fevs ++ [Ev.screenshot "send_email_failure.png"],
           Except.ok (some false))
      else
        let r := sendLoop env recipient subject body maxAttempts remaining (attempt + 1) p1
        (r.1, hd :: evs ++ fevs ++ tryCloseDialog env ++ r.2.1, r.2.2)

/-- `compose_and_send_email` (app.py lines 239-368). -/
def compose_and_send_email (env : Env) (recipient subject body : String)
    (maxAttempts : Nat := 3) (p : Page) :
    Page × List Ev × Except String (Option Bool) :=
  sendLoop env recipient subject body maxAttempts maxAttempts 1 p

/-- Controller state for `close`: the driver reference
(`self.driver`), `none` before a session exists. -/
structure Ctrl where
  driver : Option Nat

/-- `driver.quit()`: may raise, per the oracle. -/
def quitDriver (env : Env) (d : Nat) : List Ev × Except String Unit :=
  if env.quitRaises then ([Ev.quit d], Except.error "WebDriverException")
  else ([Ev.quit d], Except.ok ())

/-- `close` (app.py lines 370-377): if a driver exists, `quit()` it inside
`try/except` (an error is only logged); `self.driver` is not reset. -/
def close (env : Env) (c : Ctrl) : List Ev × Except String Unit × Ctrl :=
  match c.driver with
  | none => ([], Except.ok (), c)
  | some d =>
    match quitDriver env d with
    | (evs, Except.ok ()) =>
      (evs ++ [Ev.log "Browser closed successfully"], Except.ok (), c)
    | (evs, Except.error m) =>
      (evs ++ [Ev.log ("Error closing browser: " ++ m)], Except.ok (), c)

/-- The selector-fallback resolution policy distilled from the repeated
`for selector in [...]: try ... except: continue` loops: strictly ordered,
first-match-wins linear search, each failed candidate swallowed. -/
def resolveFirst (resolve : String → Option Nat) : List String → Option Nat
  | [] => none
  | sel :: rest =>
    match resolve sel with
    | some e => some e
    | none => resolveFirst resolve rest

/-! ### Concrete environments used by the scenario claims -/

/-- The happy-path browser oracle: every navigation lands, the first
candidate of every cascade resolves (to a distinct element id), every
click succeeds, the field is a faithful text input (clearing empties it,
each keystroke appends, the value attribute reads the content back). -/
def happyEnv : Env where
  navOk := fun _ => true
  currentUrl := fun u => u
  resolveVisible := fun _ sel =>
    if sel = "input[type=\"email\"]" then some 1
    else if sel = "input[type=\"password\"]" then some 2
    else if sel = "div[role=\"dialog\"]" then some 3
    else if sel = "input[aria-label=\"To\"]" then some 4
    else if sel = "input[name=\"subjectbox\"]" then some 5
    else if sel = "div[aria-label=\"Message Body\"]" then some 6
    else none
  resolveClickable := fun _ loc =>
    if loc = Locator.id "identifierNext" then some 10
    else if loc = Locator.id "passwordNext" then some 11
    else if loc = composeLocator then some 12
    else if loc = Locator.css "div[aria-label*=\"Send\"]" then some 13
    else none
  presenceOk := fun _ => true
  invisibleOk := fun _ => true
  clickOk := fun _ => true
  clearField := fun _ _ => some ""
  typeChar := fun _ cur c => some (cur.push c)
  typeBulk := fun _ cur s => some (cur ++ s)
  findClose := none
  quitRaises := false
  screenshotRaises := false
  cookiesRaises := false

/-- A variant of the happy oracle: candidate `a` resolves to element 7,
whose clear keystroke raises (so typing into it fails), and candidate `b`
resolves to element 8, which behaves. -/
def brokenFirstEnv : Env :=
  { happyEnv with
    resolveVisible := fun _ sel =>
      if sel = "a" then some 7 else if sel = "b" then some 8 else none
    clearField := fun e _ => if e = 7 then none else some "" }

/-- The end-to-end happy-path login run of the spec scenario. -/
def happyLogin : Page × List Ev × Except String (Option Bool) :=
  login_to_gmail happyEnv "u@x.com" "pw" 3 page0

/-- The end-to-end happy-path send run, continuing from the login. -/
def happySend : Page × List Ev × Except String (Option Bool) :=
  compose_and_send_email happyEnv "r@y.com" "Hi" "Hello" 3 happyLogin.1

/-! ### The abstract operations of the end-to-end scenario, as event
segments.  Each definition is the event trace of one abstract operation of
the spec sequence navigate / fill-email / click-next / fill-password /
click-submit / detect-landmark / open-compose / fill-recipient /
fill-subject / fill-body / click-send / detect-dialog-closed, on the
happy-path oracle. -/

/-- The attempt-header log of the login loop. -/
def loginHeaderEvs : List Ev := [Ev.attemptStart "login" 1 3]

/-- navigate: one `driver.get` landing on the first entry url. -/
def navigateEvs : List Ev := [Ev.get "https://mail.google.com"]

/-- fill-email: resolve the first email selector and type the address. -/
def fillEmailEvs : List Ev :=
  [Ev.waitVisible none "input[type=\"email\"]" (some 1), Ev.clearKeys 1,
   Ev.sendChar 1 'u', Ev.sendChar 1 '@', Ev.sendChar 1 'x', Ev.sendChar 1 '.',
   Ev.sendChar 1 'c', Ev.sendChar 1 'o', Ev.sendChar 1 'm',
   Ev.readValue 1 "u@x.com"]

/-- click-next: resolve and click the first next-button locator. -/
def clickNextEvs : List Ev :=
  [Ev.waitClickable none (Locator.id "identifierNext") (some 10),
   Ev.click (Locator.id "identifierNext") 10 true]

/-- fill-password: resolve the first password selector and type it. -/
def fillPasswordEvs : List Ev :=
  [Ev.waitVisible none "input[type=\"password\"]" (some 2), Ev.clearKeys 2,
   Ev.sendChar 2 'p', Ev.sendChar 2 'w', Ev.readValue 2 "pw"]

/-- click-submit: resolve and click the first submit-button locator. -/
def clickSubmitEvs : List Ev :=
  [Ev.waitClickable none (Locator.id "passwordNext") (some 11),
   Ev.click (Locator.id "passwordNext") 11 true]

/-- detect-landmark: the post-login Compose landmark wait succeeds. -/
def detectLandmarkEvs : List Ev :=
  [Ev.waitPresence composeLocator true, Ev.log "Login successful"]

/-- The attempt-header log of the send loop. -/
def sendHeaderEvs : List Ev := [Ev.attemptStart "send" 1 3]

/-- open-compose: resolve and click Compose, wait for the dialog. -/
def openComposeEvs : List Ev :=
  [Ev.waitClickable none composeLocator (some 12),
   Ev.click composeLocator 12 true,
   Ev.waitVisible none dialogSelector (some 3)]

/-- fill-recipient: resolve the first recipient selector and type it. -/
def fillRecipientEvs : List Ev :=
  [Ev.waitVisible (some 3) "input[aria-label=\"To\"]" (some 4), Ev.clearKeys 4,
   Ev.sendChar 4 'r', Ev.sendChar 4 '@', Ev.sendChar 4 'y', Ev.sendChar 4 '.',
   Ev.sendChar 4 'c', Ev.sendChar 4 'o', Ev.sendChar 4 'm',
   Ev.readValue 4 "r@y.com"]

/-- fill-subject: resolve the first subject selector and type it. -/
def fillSubjectEvs : List Ev :=
  [Ev.waitVisible (some 3) "input[name=\"subjectbox\"]" (some 5), Ev.clearKeys 5,
   Ev.sendChar 5 'H', Ev.sendChar 5 'i', Ev.readValue 5 "Hi"]

/-- fill-body: resolve the first body selector, click it, bulk-send. -/
def fillBodyEvs : List Ev :=
  [Ev.waitVisible (some 3) "div[aria-label=\"Message Body\"]" (some 6),
   Ev.click (Locator.css "div[aria-label=\"Message Body\"]") 6 true,
   Ev.sendBulk 6 "Hello"]

/-- click-send: resolve and click the first send-button selector. -/
def clickSendEvs : List Ev :=
  [Ev.waitClickable (some 3) (Locator.css "div[aria-label*=\"Send\"]") (some 13),
   Ev.click (Locator.css "div[aria-label*=\"Send\"]") 13 true]

/-- detect-dialog-closed: the dialog-invisibility wait succeeds. -/
def dialogClosedEvs : List Ev :=
  [Ev.waitInvisible dialogSelector true, Ev.log "Email sent successfully"]

/-! ### Event classifiers used by the claims -/

/-- Is this event a bulk retype (`element.send_keys(text)` of a whole
string)? -/
def isSendBulk : Ev → Bool
  | Ev.sendBulk _ _ => true
  | _ => false

/-- Is this event the start of a retry-loop attempt? -/
def isAttemptStart : Ev → Bool
  | Ev.attemptStart _ _ _ => true
  | _ => false

/-- Is this event a screenshot capture? -/
def isScreenshot : Ev → Bool
  | Ev.screenshot _ => true
  | _ => false

/-- Does this event touch the login submit control (the `passwordNext`
locator), either by waiting for it or by clicking it? -/
def mentionsSubmit : Ev → Bool
  | Ev.waitClickable _ (Locator.id s) _ => s = "passwordNext"
  | Ev.click (Locator.id s) _ _ => s = "passwordNext"
  | _ => false

/-- Events that can be emitted from inside an attempt body; the retry
loops themselves are the only emitters of `attemptStart`, `screenshot` and
`deleteCookies`, and only `close` emits `quit`. -/
def innerEv : Ev → Bool
  | Ev.attemptStart _ _ _ => false
  | Ev.screenshot _ => false
  | Ev.deleteCookies => false
  | Ev.quit _ => false
  | _ => true

/-- Events emitted by typed-field handling (`human_type` and the
`typeCascade` loops): visibility waits and keystroke traffic only. -/
def fieldEv : Ev → Bool
  | Ev.waitVisible _ _ _ => true
  | Ev.clearKeys _ => true
  | Ev.sendChar _ _ => true
  | Ev.sendBulk _ _ => true
  | Ev.readValue _ _ => true
  | Ev.log _ => true
  | _ => false

/-- An oracle on which no element ever resolves, visible or clickable;
navigation itself lands fine. -/
def noResolveEnv : Env :=
  { happyEnv with
    resolveVisible := fun _ _ => none
    resolveClickable := fun _ _ => none }

/-- The never-resolving oracle with a driver whose `save_screenshot`
raises: the final-attempt diagnostic call in the except handler fails. -/
def deadScreenshotEnv : Env :=
  { noResolveEnv with screenshotRaises := true }

end GmailAuto

namespace GmailAuto

/-- C1.  On the happy-path oracle with credentials `(u@x.com, pw)` and
message `(r@y.com, Hi, Hello)`, login followed by send reports success
twice, and the observed event trace is exactly the concatenation of the
twelve abstract operations navigate, fill-email, click-next,
fill-password, click-submit, detect-landmark, open-compose,
fill-recipient, fill-subject, fill-body, click-send, detect-dialog-closed
(each preceded only by the attempt-header log of its loop). -/
theorem login_send_happy_path :
    happyLogin.2.2 = Except.ok (some true) ∧
    happySend.2.2 = Except.ok (some true) ∧
    happyLogin.2.1 =
      loginHeaderEvs ++ navigateEvs ++ fillEmailEvs ++ clickNextEvs ++
        fillPasswordEvs ++ clickSubmitEvs ++ detectLandmarkEvs ∧
    happySend.2.1 =
      sendHeaderEvs ++ openComposeEvs ++ fillRecipientEvs ++ fillSubjectEvs ++
        fillBodyEvs ++ clickSendEvs ++ dialogClosedEvs := by
  refine ⟨rfl, rfl, ?_, ?_⟩ <;> decide

/-- C6.  `close` never raises: it reports `ok` whatever the driver state
and oracle, calling it a second time on the resulting controller state
also reports `ok`, and with no session it is a no-op. -/
theorem close_never_raises :
    ∀ (env : Env) (c : Ctrl),
      (close env c).2.1 = Except.ok () ∧
      (close env (close env c).2.2).2.1 = Except.ok () ∧
      (c.driver = none → close env c = ([], Except.ok (), c)) := by
  intro env c
  rcases c with ⟨(_ | d)⟩
  · exact ⟨rfl, rfl, fun _ => rfl⟩
  · cases h : env.quitRaises <;>
      simp [close, quitDriver, h]

/-- C6 witness: a controller with no session. -/
theorem close_never_raises_witness :
    (close happyEnv ⟨none⟩).2.1 = Except.ok () ∧
    (close happyEnv (close happyEnv ⟨none⟩).2.2).2.1 = Except.ok () ∧
    close happyEnv ⟨none⟩ = ([], Except.ok (), (⟨none⟩ : Ctrl)) := by
  obtain ⟨h1, h2, h3⟩ := close_never_raises happyEnv ⟨none⟩
  exact ⟨h1, h2, h3 rfl⟩

/-- C9.  With `max_attempts = 0` the attempt loops never run: both
`login_to_gmail` and `compose_and_send_email` return the Python implicit
`None` normally (neither `True` nor `False`, and no exception), leave the
page untouched and emit no event at all (no screenshot, no UI
interaction). -/
theorem zero_attempts_return_none :
    ∀ (env : Env) (email password recipient subject body : String) (p : Page),
      login_to_gmail env email password 0 p = (p, [], Except.ok none) ∧
      compose_and_send_email env recipient subject body 0 p =
        (p, [], Except.ok none) := by
  intro env email password recipient subject body p
  exact ⟨rfl, rfl⟩

/-- Helper: with a per-character oracle that never raises on element `e`,
the character loop completes and emits only `sendChar` events to `e`. -/
theorem typeChars_ok (env : Env) (e : Nat)
    (hchar : ∀ cur c, (env.typeChar e cur c).isSome = true) :
    ∀ (cs : List Char) (p : Page),
      (typeChars env e cs p).2.2 = Except.ok () ∧
      ∀ ev ∈ (typeChars env e cs p).2.1, ∃ c, ev = Ev.sendChar e c := by
  intro cs
  induction cs with
  | nil => intro p; exact ⟨rfl, by simp [typeChars]⟩
  | cons c cs ih =>
    intro p
    have h := hchar (p.content e) c
    cases hcc : env.typeChar e (p.content e) c with
    | none => rw [hcc] at h; simp at h
    | some nc =>
      refine ⟨?_, ?_⟩
      · simpa [typeChars, hcc] using (ih (setContent e nc p)).1
      · simp only [typeChars, hcc, List.mem_cons]
        rintro ev (rfl | hev)
        · exact ⟨c, rfl⟩
        · exact (ih (setContent e nc p)).2 ev hev

/-- Helper: `"" ++ s = s` for strings. -/
theorem empty_string_append (s : String) : "" ++ s = s := rfl

/-- Helper: on an element whose clear empties it, whose bulk send appends
and whose per-character sends never raise, `human_type` returns `true`,
leaves the field content equal to the text modulo `strip`, and performs at
most one bulk retype. -/
theorem humanType_ok (env : Env) (e : Nat) (text fieldName : String) (p : Page)
    (hclear : ∀ cur, env.clearField e cur = some "")
    (hbulk : ∀ cur s, env.typeBulk e cur s = some (cur ++ s))
    (hchar : ∀ cur c, (env.typeChar e cur c).isSome = true) :
    (human_type env e text fieldName p).2.2 = true ∧
    pyStrip ((human_type env e text fieldName p).1.content e) = pyStrip text ∧
    (human_type env e text fieldName p).2.1.countP isSendBulk ≤ 1 := by
  obtain ⟨hok, hshape⟩ := typeChars_ok env e hchar text.data (setContent e "" p)
  rcases htc : typeChars env e text.data (setContent e "" p) with ⟨p2, evs1, r⟩
  rw [htc] at hok hshape; simp only at hok hshape
  subst hok
  have hnb : evs1.countP isSendBulk = 0 := by
    rw [List.countP_eq_zero]
    intro ev hev
    obtain ⟨c, rfl⟩ := hshape ev hev
    simp [isSendBulk]
  by_cases hmis : pyStrip (p2.content e) = pyStrip text
  · refine ⟨?_, ?_, ?_⟩ <;>
      simp [human_type, clear_field, hclear, htc, hmis, hbulk,
        List.countP_append, List.countP_cons, hnb, isSendBulk]
  · refine ⟨?_, ?_, ?_⟩ <;>
      simp [human_type, clear_field, hclear, htc, hmis, hbulk,
        List.countP_append, List.countP_cons, hnb, isSendBulk]
    all_goals simp [setContent, empty_string_append]

/-- C7.  `human_type` on a well-behaved field (clear empties it, a bulk
send appends, single keystrokes never raise — the field may still drop or
mangle individual keystrokes): it reports `true`, the final field content
equals the intended text modulo `strip`, and at most one corrective
clear-and-retype (bulk send) is performed, after which the result is
accepted without further verification. -/
theorem human_type_content_correct :
    ∀ (env : Env) (e : Nat) (text fieldName : String) (p : Page),
      (∀ cur, env.clearField e cur = some "") →
      (∀ cur s, env.typeBulk e cur s = some (cur ++ s)) →
      (∀ cur c, (env.typeChar e cur c).isSome = true) →
      (human_type env e text fieldName p).2.2 = true ∧
      pyStrip ((human_type env e text fieldName p).1.content e) = pyStrip text ∧
      ((human_type env e text fieldName p).2.1.countP isSendBulk) ≤ 1 := by
  intro env e text fieldName p hclear hbulk hchar
  exact humanType_ok env e text fieldName p hclear hbulk hchar

/-- Helper: a raising clear makes `human_type` report `false` at once,
with the page untouched. -/
theorem humanType_clear_raises (env : Env) (e : Nat) (text fieldName : String)
    (p : Page) (hclear : ∀ cur, env.clearField e cur = none) :
    human_type env e text fieldName p = (p, [Ev.clearKeys e], false) := by
  simp [human_type, clear_field, hclear]

/-- C2.  Linear fallback correctness of the selector cascade: on any
candidate list in which exactly one candidate resolves (and typing into
its element behaves), the cascade commits to that element, whatever its
position in the list.  Candidates are tried strictly in order and every
failed candidate is swallowed; the loop stops at the first success. -/
theorem resolver_position_independent :
    ∀ (env : Env) (scope : Option Nat) (text fieldName : String)
      (sels : List String) (c : String) (e : Nat) (p : Page),
      c ∈ sels →
      env.resolveVisible scope c = some e →
      (∀ c' ∈ sels, (env.resolveVisible scope c').isSome = true → c' = c) →
      (∀ cur, env.clearField e cur = some "") →
      (∀ cur s, env.typeBulk e cur s = some (cur ++ s)) →
      (∀ cur ch, (env.typeChar e cur ch).isSome = true) →
      (typeCascade env scope text fieldName sels p).2.2 = some e := by
  intro env scope text fieldName sels c e p hmem hres huniq hclear hbulk hchar
  induction sels generalizing p with
  | nil => cases hmem
  | cons s rest ih =>
    by_cases hsc : s = c
    · subst hsc
      rcases hht : human_type env e text fieldName p with ⟨p', evs, b⟩
      have hb := (humanType_ok env e text fieldName p hclear hbulk hchar).1
      rw [hht] at hb; simp only at hb; subst hb
      simp [typeCascade, hres, hht]
    · have hnone : env.resolveVisible scope s = none := by
        cases hs : env.resolveVisible scope s with
        | none => rfl
        | some e' =>
          exact absurd (huniq s (List.mem_cons_self s rest) (by simp [hs])) hsc
      have hmem' : c ∈ rest := by
        rcases List.mem_cons.mp hmem with h | h
        · exact absurd h.symm hsc
        · exact h
      have huniq' : ∀ c' ∈ rest, (env.resolveVisible scope c').isSome = true → c' = c :=
        fun c' hc' => huniq c' (List.mem_cons_of_mem s hc')
      simp [typeCascade, hnone, ih p hmem' huniq']

/-- C2 witness: the unique resolving candidate sits in second position. -/
theorem resolver_position_independent_witness :
    (typeCascade
      { happyEnv with resolveVisible := fun _ sel => if sel = "b" then some 7 else none }
      none "x" "email" ["a", "b", "c"] page0).2.2 = some 7 :=
  resolver_position_independent
    { happyEnv with resolveVisible := fun _ sel => if sel = "b" then some 7 else none }
    none "x" "email" ["a", "b", "c"] "b" 7 page0
    (by decide)
    rfl
    (by intro c' hc' h; fin_cases hc' <;> simp_all)
    (fun _ => rfl) (fun _ _ => rfl) (fun _ _ => rfl)

/-- C10.  In the typed-field cascades a candidate succeeds only if its
element both resolves and is typed into successfully: when the first
candidate resolves but `human_type` on its element reports `false` (a
driver call raised inside), the cascade silently moves on and commits to
the second candidate, so order matters even though the first candidate
resolved. -/
theorem resolved_but_type_failed_advances :
    ∀ (env : Env) (scope : Option Nat) (text fieldName : String)
      (s1 s2 : String) (rest : List String) (e1 e2 : Nat) (p : Page),
      env.resolveVisible scope s1 = some e1 →
      (∀ cur, env.clearField e1 cur = none) →
      env.resolveVisible scope s2 = some e2 →
      (∀ cur, env.clearField e2 cur = some "") →
      (∀ cur s, env.typeBulk e2 cur s = some (cur ++ s)) →
      (∀ cur ch, (env.typeChar e2 cur ch).isSome = true) →
      (typeCascade env scope text fieldName (s1 :: s2 :: rest) p).2.2 = some e2 ∧
      (typeCascade env scope text fieldName (s1 :: s2 :: rest) p).2.1.head? =
        some (Ev.waitVisible scope s1 (some e1)) := by
  intro env scope text fieldName s1 s2 rest e1 e2 p hres1 hraise1 hres2 hclear2 hbulk2 hchar2
  have hfail := humanType_clear_raises env e1 text fieldName p hraise1
  rcases hht : human_type env e2 text fieldName p with ⟨p', evs, b⟩
  have hb := (humanType_ok env e2 text fieldName p hclear2 hbulk2 hchar2).1
  rw [hht] at hb; simp only at hb; subst hb
  constructor <;>
    simp [typeCascade, hres1, hres2, hfail, hht]

/-- C10 witness: first candidate resolves to an element whose clear
raises; the cascade commits to the second candidate. -/
theorem resolved_but_type_failed_advances_witness :
    (typeCascade brokenFirstEnv none "x" "email" ["a", "b"] page0).2.2 = some 8 ∧
    (typeCascade brokenFirstEnv none "x" "email" ["a", "b"] page0).2.1.head? =
      some (Ev.waitVisible none "a" (some 7)) :=
  resolved_but_type_failed_advances brokenFirstEnv none "x" "email" "a" "b" [] 7 8 page0
    rfl (fun _ => rfl) rfl (fun _ => rfl) (fun _ _ => rfl) (fun _ _ => rfl)

/-- C7 witness: concrete instance on the happy-path oracle. -/
theorem human_type_content_correct_witness :
    (human_type happyEnv 1 "a b" "email" page0).2.2 = true ∧
    pyStrip ((human_type happyEnv 1 "a b" "email" page0).1.content 1) = pyStrip "a b" ∧
    ((human_type happyEnv 1 "a b" "email" page0).2.1.countP isSendBulk) ≤ 1 :=
  human_type_content_correct happyEnv 1 "a b" "email" page0
    (fun _ => rfl) (fun _ _ => rfl) (fun _ _ => rfl)

/-! ### Event-shape lemmas: which events each phase can emit -/

/-- Helper: a field event is an inner event and never touches the submit
locator. -/
theorem fieldEv_props (ev : Ev) (h : fieldEv ev = true) :
    innerEv ev = true ∧ mentionsSubmit ev = false := by
  cases ev <;> simp_all [fieldEv, innerEv, mentionsSubmit]

/-- Helper: `clear_field` emits exactly one `clearKeys` event. -/
theorem clear_field_events (env : Env) (e : Nat) (p : Page) :
    (clear_field env e p).2.1 = [Ev.clearKeys e] := by
  cases h : env.clearField e (p.content e) <;> simp [clear_field, h]

/-- Helper: the character loop emits only field events. -/
theorem typeChars_fieldEv (env : Env) (e : Nat) :
    ∀ (cs : List Char) (p : Page),
      ((typeChars env e cs p).2.1).all fieldEv = true := by
  intro cs
  induction cs with
  | nil => intro p; rfl
  | cons c cs ih =>
    intro p
    cases h : env.typeChar e (p.content e) c <;>
      simp [typeChars, h, fieldEv, ih]

/-- Helper: `human_type` emits only field events. -/
theorem human_type_fieldEv (env : Env) (e : Nat) (text fieldName : String)
    (p : Page) : ((human_type env e text fieldName p).2.1).all fieldEv = true := by
  rcases hcf : env.clearField e (p.content e) with _ | c
  · simp [human_type, clear_field, hcf, fieldEv]
  · have h1 := typeChars_fieldEv env e text.data (setContent e c p)
    rcases htc : typeChars env e text.data (setContent e c p) with ⟨p2, evs1, r⟩
    rw [htc] at h1; simp only at h1
    cases r with
    | error m => simp [human_type, clear_field, hcf, htc, fieldEv, h1]
    | ok u =>
      cases u
      by_cases hmis : pyStrip (p2.content e) = pyStrip text
      · simp [human_type, clear_field, hcf, htc, hmis, fieldEv, h1]
      · rcases hcf2 : env.clearField e (p2.content e) with _ | c2
        · simp [human_type, clear_field, hcf, htc, hmis, hcf2, fieldEv, h1]
        · cases htb : env.typeBulk e ((setContent e c2 p2).content e) text <;>
            simp [human_type, clear_field, hcf, htc, hmis, hcf2, htb, fieldEv, h1]

/-- Helper: the typed-field cascades emit only field events. -/
theorem typeCascade_fieldEv (env : Env) (scope : Option Nat)
    (text fieldName : String) :
    ∀ (sels : List String) (p : Page),
      ((typeCascade env scope text fieldName sels p).2.1).all fieldEv = true := by
  intro sels
  induction sels with
  | nil => intro p; rfl
  | cons s rest ih =>
    intro p
    cases hr : env.resolveVisible scope s with
    | none => simp [typeCascade, hr, fieldEv, ih p]
    | some e =>
      have hh := human_type_fieldEv env e text fieldName p
      rcases hht : human_type env e text fieldName p with ⟨p1, evs, b⟩
      rw [hht] at hh; simp only at hh
      cases b <;> simp [typeCascade, hr, hht, fieldEv, hh, ih p1]

/-- Helper: the url loop emits only `get` events. -/
theorem loadGmail_gets (env : Env) :
    ∀ (us : List String), ∀ ev ∈ (loadGmail env us).1, ∃ u, ev = Ev.get u := by
  intro us
  induction us with
  | nil => intro ev hev; cases hev
  | cons u rest ih =>
    intro ev hev
    by_cases hn : env.navOk u = true
    · by_cases hc : (containsSub (env.currentUrl u) "google.com/accounts" ||
          containsSub (env.currentUrl u) "mail.google.com") = true
      · simp only [loadGmail, hn, hc, if_true, List.mem_singleton] at hev
        exact ⟨u, hev⟩
      · rw [Bool.not_eq_true] at hc
        simp only [loadGmail, hn, hc, if_true, Bool.false_eq_true, if_false,
          List.mem_cons] at hev
        rcases hev with rfl | hev
        · exact ⟨u, rfl⟩
        · exact ih ev hev
    · rw [Bool.not_eq_true] at hn
      simp only [loadGmail, hn, Bool.false_eq_true, if_false, List.mem_cons] at hev
      rcases hev with rfl | hev
      · exact ⟨u, rfl⟩
      · exact ih ev hev

/-- Helper: the click cascades emit only waits and clicks on locators of
their candidate list. -/
theorem clickCascade_shape (env : Env) (scope : Option Nat) :
    ∀ (locs : List Locator), ∀ ev ∈ (clickCascade env scope locs).1,
      ∃ l ∈ locs, (∃ r, ev = Ev.waitClickable scope l r) ∨
        (∃ e b, ev = Ev.click l e b) := by
  intro locs
  induction locs with
  | nil => intro ev hev; cases hev
  | cons loc rest ih =>
    intro ev hev
    cases hr : env.resolveClickable scope loc with
    | none =>
      simp only [clickCascade, hr, List.mem_cons] at hev
      rcases hev with rfl | hev
      · exact ⟨loc, List.mem_cons_self _ _, Or.inl ⟨none, rfl⟩⟩
      · obtain ⟨l, hl, hshape⟩ := ih ev hev
        exact ⟨l, List.mem_cons_of_mem _ hl, hshape⟩
    | some e =>
      by_cases hck : env.clickOk e = true
      · simp only [clickCascade, hr, hck, if_true, List.mem_cons] at hev
        rcases hev with rfl | rfl | hev
        · exact ⟨loc, List.mem_cons_self _ _, Or.inl ⟨some e, rfl⟩⟩
        · exact ⟨loc, List.mem_cons_self _ _, Or.inr ⟨e, true, rfl⟩⟩
        · cases hev
      · rw [Bool.not_eq_true] at hck
        simp only [clickCascade, hr, hck, Bool.false_eq_true, if_false,
          List.mem_cons] at hev
        rcases hev with rfl | rfl | hev
        · exact ⟨loc, List.mem_cons_self _ _, Or.inl ⟨some e, rfl⟩⟩
        · exact ⟨loc, List.mem_cons_self _ _, Or.inr ⟨e, false, rfl⟩⟩
        · obtain ⟨l, hl, hshape⟩ := ih ev hev
          exact ⟨l, List.mem_cons_of_mem _ hl, hshape⟩

/-- Helper: the body cascade emits only inner events. -/
theorem bodyCascade_inner (env : Env) (dlg : Nat) (body : String) :
    ∀ (sels : List String) (p : Page),
      ((bodyCascade env dlg body sels p).2.1).all innerEv = true := by
  intro sels
  induction sels with
  | nil => intro p; rfl
  | cons s rest ih =>
    intro p
    cases hr : env.resolveVisible (some dlg) s with
    | none => simp [bodyCascade, hr, innerEv, ih p]
    | some e =>
      by_cases hck : env.clickOk e = true
      · cases htb : env.typeBulk e (p.content e) body <;>
          simp [bodyCascade, hr, hck, htb, innerEv, ih p]
      · rw [Bool.not_eq_true] at hck
        simp [bodyCascade, hr, hck, innerEv, ih p]

/-- Helper: when no candidate resolves, a typed-field cascade attempts
every candidate in order, emits exactly the failed visibility waits,
returns no element and leaves the page untouched. -/
theorem typeCascade_resolve_none (env : Env) (scope : Option Nat)
    (text fieldName : String) :
    ∀ (sels : List String) (p : Page),
      (∀ s ∈ sels, env.resolveVisible scope s = none) →
      typeCascade env scope text fieldName sels p =
        (p, sels.map (fun s => Ev.waitVisible scope s none), none) := by
  intro sels
  induction sels with
  | nil => intro p _; rfl
  | cons s rest ih =>
    intro p h
    have hs := h s (List.mem_cons_self _ _)
    simp [typeCascade, hs, ih p (fun s' hs' => h s' (List.mem_cons_of_mem _ hs'))]

/-- Helper: typed-field cascade events, in the for-all-members form. -/
theorem typeCascade_fieldEv_mem (env : Env) (scope : Option Nat)
    (text fieldName : String) (sels : List String) (p : Page) :
    ∀ ev ∈ (typeCascade env scope text fieldName sels p).2.1, fieldEv ev = true :=
  List.all_eq_true.mp (typeCascade_fieldEv env scope text fieldName sels p)

/-- Helper: the send cascade emits only inner events. -/
theorem sendCascade_inner (env : Env) (dlg : Nat) :
    ∀ (sels : List String),
      ((sendCascade env dlg sels).1).all innerEv = true := by
  intro sels
  induction sels with
  | nil => rfl
  | cons s rest ih =>
    cases hr : env.resolveClickable (some dlg) (sendLocator s) with
    | none => simp [sendCascade, hr, innerEv, ih]
    | some e =>
      by_cases hck : env.clickOk e = true
      · simp [sendCascade, hr, hck, innerEv]
      · rw [Bool.not_eq_true] at hck
        simp [sendCascade, hr, hck, innerEv, ih]

/-- Helper: inner events are neither attempt headers nor screenshots. -/
theorem innerEv_props (ev : Ev) (h : innerEv ev = true) :
    isAttemptStart ev = false ∧ isScreenshot ev = false := by
  cases ev <;> simp_all [innerEv, isAttemptStart, isScreenshot]

/-- Helper: membership forms of the phase event lemmas. -/
theorem typeCascade_inner_mem (env : Env) (scope : Option Nat)
    (text fieldName : String) (sels : List String) (p : Page) :
    ∀ ev ∈ (typeCascade env scope text fieldName sels p).2.1, innerEv ev = true :=
  fun ev hev =>
    (fieldEv_props ev (typeCascade_fieldEv_mem env scope text fieldName sels p ev hev)).1

/-- Helper: click cascades emit only inner events. -/
theorem clickCascade_inner_mem (env : Env) (scope : Option Nat)
    (locs : List Locator) :
    ∀ ev ∈ (clickCascade env scope locs).1, innerEv ev = true := by
  intro ev hev
  obtain ⟨l, _, h | h⟩ := clickCascade_shape env scope locs ev hev
  · obtain ⟨r, rfl⟩ := h; rfl
  · obtain ⟨e, b, rfl⟩ := h; rfl

/-- Helper: the url loop emits only inner events. -/
theorem loadGmail_inner_mem (env : Env) (us : List String) :
    ∀ ev ∈ (loadGmail env us).1, innerEv ev = true := by
  intro ev hev
  obtain ⟨u, rfl⟩ := loadGmail_gets env us ev hev
  rfl

/-- Helper: the stuck-dialog closer emits only inner events. -/
theorem tryCloseDialog_inner (env : Env) :
    ∀ ev ∈ tryCloseDialog env, innerEv ev = true := by
  intro ev hev
  cases h : env.findClose with
  | none =>
    rw [tryCloseDialog, h] at hev
    simp only [List.mem_singleton] at hev
    subst hev; rfl
  | some e =>
    rw [tryCloseDialog, h] at hev
    simp only [List.mem_cons, List.not_mem_nil, or_false] at hev
    rcases hev with rfl | rfl <;> rfl

/-- Helper: a login attempt body emits only inner events (never an
attempt header, screenshot, cookie wipe or quit). -/
theorem loginAttempt_inner (env : Env) (email password : String) (p : Page) :
    ∀ ev ∈ (loginAttempt env email password p).2.1, innerEv ev = true := by
  have h0 := loadGmail_inner_mem env urls
  rcases hl : loadGmail env urls with ⟨evs0, r0⟩
  rw [hl] at h0; simp only at h0
  cases r0 with
  | error m => simpa only [loginAttempt, hl] using h0
  | ok u =>
    cases u
    have h1 := typeCascade_inner_mem env none email "email" emailSelectors p
    rcases he : typeCascade env none email "email" emailSelectors p with ⟨p1, evs1, r1⟩
    rw [he] at h1; simp only at h1
    cases r1 with
    | none =>
      simp only [loginAttempt, hl, he]
      exact List.forall_mem_append.mpr ⟨h0, h1⟩
    | some e1 =>
      have h2 := clickCascade_inner_mem env none nextButtons
      rcases hn : clickCascade env none nextButtons with ⟨evs2, r2⟩
      rw [hn] at h2; simp only at h2
      cases r2 with
      | none =>
        simp only [loginAttempt, hl, he, hn]
        exact List.forall_mem_append.mpr ⟨List.forall_mem_append.mpr ⟨h0, h1⟩, h2⟩
      | some e2 =>
        have h3 := typeCascade_inner_mem env none password "password" passwordSelectors p1
        rcases hp : typeCascade env none password "password" passwordSelectors p1 with
          ⟨p2, evs3, r3⟩
        rw [hp] at h3; simp only at h3
        cases r3 with
        | none =>
          simp only [loginAttempt, hl, he, hn, hp]
          exact List.forall_mem_append.mpr
            ⟨List.forall_mem_append.mpr ⟨List.forall_mem_append.mpr ⟨h0, h1⟩, h2⟩, h3⟩
        | some e3 =>
          have h4 := clickCascade_inner_mem env none submitButtons
          rcases hs : clickCascade env none submitButtons with ⟨evs4, r4⟩
          rw [hs] at h4; simp only at h4
          have h0123 : ∀ ev ∈ evs0 ++ evs1 ++ evs2 ++ evs3, innerEv ev = true :=
            List.forall_mem_append.mpr
              ⟨List.forall_mem_append.mpr ⟨List.forall_mem_append.mpr ⟨h0, h1⟩, h2⟩, h3⟩
          cases r4 with
          | none =>
            simp only [loginAttempt, hl, he, hn, hp, hs]
            exact List.forall_mem_append.mpr ⟨h0123, h4⟩
          | some e4 =>
            by_cases hpr : env.presenceOk composeLocator = true
            · simp only [loginAttempt, hl, he, hn, hp, hs, hpr, if_true]
              exact List.forall_mem_append.mpr
                ⟨List.forall_mem_append.mpr ⟨h0123, h4⟩, by decide⟩
            · rw [Bool.not_eq_true] at hpr
              simp only [loginAttempt, hl, he, hn, hp, hs, hpr, Bool.false_eq_true,
                if_false]
              exact List.forall_mem_append.mpr
                ⟨List.forall_mem_append.mpr ⟨h0123, h4⟩, by decide⟩

/-- Helper: a send attempt body emits only inner events. -/
theorem composeAttempt_inner (env : Env) (recipient subject body : String)
    (p : Page) :
    ∀ ev ∈ (composeAttempt env recipient subject body p).2.1, innerEv ev = true := by
  cases hc : env.resolveClickable none composeLocator with
  | none => simp only [composeAttempt, hc]; decide
  | some cb =>
    by_cases hck : env.clickOk cb = true
    · cases hd : env.resolveVisible none dialogSelector with
      | none =>
        simp only [composeAttempt, hc, hck, if_true, hd]
        intro ev hev
        simp only [List.mem_append, List.mem_cons, List.not_mem_nil, or_false] at hev
        rcases hev with (rfl | rfl) | rfl <;> rfl
      | some dlg =>
        have h1 := typeCascade_inner_mem env (some dlg) recipient "recipient"
          recipientSelectors p
        rcases hr : typeCascade env (some dlg) recipient "recipient"
            recipientSelectors p with ⟨p1, evsR, rR⟩
        rw [hr] at h1; simp only at h1
        have hhead : ∀ ev ∈ ([Ev.waitClickable none composeLocator (some cb),
            Ev.click composeLocator cb true] ++
              [Ev.waitVisible none dialogSelector (some dlg)]), innerEv ev = true := by
          intro ev hev
          simp only [List.mem_append, List.mem_cons, List.not_mem_nil, or_false] at hev
          rcases hev with (rfl | rfl) | rfl <;> rfl
        cases rR with
        | none =>
          simp only [composeAttempt, hc, hck, if_true, hd, hr]
          exact List.forall_mem_append.mpr ⟨hhead, h1⟩
        | some eR =>
          have h2 := typeCascade_inner_mem env (some dlg) subject "subject"
            subjectSelectors p1
          rcases hsj : typeCascade env (some dlg) subject "subject"
              subjectSelectors p1 with ⟨p2, evsS, rS⟩
          rw [hsj] at h2; simp only at h2
          cases rS with
          | none =>
            simp only [composeAttempt, hc, hck, if_true, hd, hr, hsj]
            exact List.forall_mem_append.mpr ⟨List.forall_mem_append.mpr ⟨hhead, h1⟩, h2⟩
          | some eS =>
            have h3 := List.all_eq_true.mp (bodyCascade_inner env dlg body bodySelectors p2)
            rcases hb : bodyCascade env dlg body bodySelectors p2 with ⟨p3, evsB, rB⟩
            rw [hb] at h3; simp only at h3
            have h012 : ∀ ev ∈ ([Ev.waitClickable none composeLocator (some cb),
                Ev.click composeLocator cb true] ++
                  [Ev.waitVisible none dialogSelector (some dlg)]) ++ evsR ++ evsS ++ evsB,
                innerEv ev = true :=
              List.forall_mem_append.mpr
                ⟨List.forall_mem_append.mpr
                  ⟨List.forall_mem_append.mpr ⟨hhead, h1⟩, h2⟩, h3⟩
            cases rB with
            | none =>
              simp only [composeAttempt, hc, hck, if_true, hd, hr, hsj, hb]
              exact h012
            | some eB =>
              have h4 := List.all_eq_true.mp (sendCascade_inner env dlg sendSelectors)
              rcases hsd : sendCascade env dlg sendSelectors with ⟨evsD, rD⟩
              rw [hsd] at h4; simp only at h4
              cases rD with
              | none =>
                simp only [composeAttempt, hc, hck, if_true, hd, hr, hsj, hb, hsd]
                exact List.forall_mem_append.mpr ⟨h012, h4⟩
              | some eD =>
                by_cases hin : env.invisibleOk dialogSelector = true
                · simp only [composeAttempt, hc, hck, if_true, hd, hr, hsj, hb, hsd,
                    hin]
                  exact List.forall_mem_append.mpr
                    ⟨List.forall_mem_append.mpr ⟨h012, h4⟩, by decide⟩
                · rw [Bool.not_eq_true] at hin
                  simp only [composeAttempt, hc, hck, if_true, hd, hr, hsj, hb, hsd,
                    hin, Bool.false_eq_true, if_false]
                  exact List.forall_mem_append.mpr
                    ⟨List.forall_mem_append.mpr ⟨h012, h4⟩, by decide⟩
    · rw [Bool.not_eq_true] at hck
      simp only [composeAttempt, hc, hck, Bool.false_eq_true, if_false]
      intro ev hev
      simp only [List.mem_cons, List.not_mem_nil, or_false] at hev
      rcases hev with rfl | rfl <;> rfl

/-- Helper: when no element ever resolves, a login attempt fails with the
page untouched. -/
theorem loginAttempt_noResolve (env : Env) (email password : String) (p : Page)
    (hRV : ∀ sc s, env.resolveVisible sc s = none) :
    ∃ m evs, loginAttempt env email password p = (p, evs, Except.error m) := by
  rcases hl : loadGmail env urls with ⟨evs0, r0⟩
  cases r0 with
  | error m => exact ⟨m, evs0, by simp only [loginAttempt, hl]⟩
  | ok u =>
    cases u
    have he := typeCascade_resolve_none env none email "email" emailSelectors p
      (fun s _ => hRV none s)
    exact ⟨"Could not enter email address",
      evs0 ++ emailSelectors.map (fun s => Ev.waitVisible none s none),
      by simp only [loginAttempt, hl, he]⟩

/-- Helper: when the compose button never resolves, a send attempt fails
at once with the page untouched. -/
theorem composeAttempt_noResolve (env : Env) (recipient subject body : String)
    (p : Page) (hRC : ∀ sc l, env.resolveClickable sc l = none) :
    composeAttempt env recipient subject body p =
      (p, [Ev.waitClickable none composeLocator none],
       Except.error "TimeoutException") := by
  simp only [composeAttempt, hRC]

/-! ### Retry-loop lemmas -/

/-- Helper: inner events contribute nothing to the attempt count. -/
theorem countAS_zero_of_inner {evs : List Ev}
    (h : ∀ ev ∈ evs, innerEv ev = true) : evs.countP isAttemptStart = 0 :=
  List.countP_eq_zero.mpr fun ev hev => by
    simp [(innerEv_props ev (h ev hev)).1]

/-- Helper: inner events contribute nothing to the screenshot count. -/
theorem countSS_zero_of_inner {evs : List Ev}
    (h : ∀ ev ∈ evs, innerEv ev = true) : evs.countP isScreenshot = 0 :=
  List.countP_eq_zero.mpr fun ev hev => by
    simp [(innerEv_props ev (h ev hev)).2]

/-- Helper: with at least one attempt left, the counter invariant of the
wrapper, and except-handler driver calls that do not raise, the login
loop always returns a boolean normally. -/
theorem loginLoop_ok (env : Env) (email password : String) (maxA : Nat)
    (hSS : env.screenshotRaises = false) (hCK : env.cookiesRaises = false) :
    ∀ (remaining attempt : Nat) (p : Page), 1 ≤ remaining →
      attempt + remaining = maxA + 1 →
      ∃ b, (loginLoop env email password maxA remaining attempt p).2.2 =
        Except.ok (some b) := by
  intro remaining
  induction remaining with
  | zero => intro attempt p h _; exact absurd h (by omega)
  | succ r ih =>
    intro attempt p _ hsum
    rcases ha : loginAttempt env email password p with ⟨p1, evs, rr⟩
    cases rr with
    | ok u => cases u; exact ⟨true, by simp [loginLoop, ha]⟩
    | error m =>
      by_cases heq : attempt = maxA
      · subst heq; exact ⟨false, by simp [loginLoop, ha, hSS]⟩
      · have hbeq : (attempt == maxA) = false := by simp [heq]
        obtain ⟨b, hb⟩ := ih (attempt + 1) p1 (by omega) (by omega)
        refine ⟨b, ?_⟩
        simp only [loginLoop, ha, hbeq, Bool.false_eq_true, if_false, hCK]
        exact hb

/-- Helper: the login loop starts at most `remaining` attempts. -/
theorem loginLoop_countAS (env : Env) (email password : String) (maxA : Nat) :
    ∀ (remaining attempt : Nat) (p : Page),
      ((loginLoop env email password maxA remaining attempt p).2.1).countP
        isAttemptStart ≤ remaining := by
  intro remaining
  induction remaining with
  | zero => intro attempt p; simp [loginLoop]
  | succ r ih =>
    intro attempt p
    rcases ha : loginAttempt env email password p with ⟨p1, evs, rr⟩
    have hz : evs.countP isAttemptStart = 0 := by
      apply countAS_zero_of_inner
      have h := loginAttempt_inner env email password p
      rw [ha] at h; exact h
    cases rr with
    | ok u =>
      cases u
      simp [loginLoop, ha, List.countP_cons, hz, isAttemptStart]
    | error m =>
      by_cases heq : attempt = maxA
      · subst heq
        cases hss : env.screenshotRaises <;>
          simp [loginLoop, ha, hss, List.countP_cons, List.countP_append, hz,
            isAttemptStart]
      · have hbeq : (attempt == maxA) = false := by simp [heq]
        cases hck : env.cookiesRaises with
        | true =>
          simp [loginLoop, ha, hbeq, hck, List.countP_cons, List.countP_append,
            hz, isAttemptStart]
        | false =>
          have hrec := ih (attempt + 1) p1
          simp only [loginLoop, ha, hbeq, Bool.false_eq_true, if_false, hck]
          simp [List.countP_cons, List.countP_append, hz, isAttemptStart]
          omega

/-- Helper: with at least one attempt left, the counter invariant, and a
screenshot call that does not raise, the send loop always returns a
boolean normally. -/
theorem sendLoop_ok (env : Env) (recipient subject body : String)
    (maxA : Nat) (hSS : env.screenshotRaises = false) :
    ∀ (remaining attempt : Nat) (p : Page), 1 ≤ remaining →
      attempt + remaining = maxA + 1 →
      ∃ b, (sendLoop env recipient subject body maxA remaining attempt p).2.2 =
        Except.ok (some b) := by
  intro remaining
  induction remaining with
  | zero => intro attempt p h _; exact absurd h (by omega)
  | succ r ih =>
    intro attempt p _ hsum
    rcases ha : composeAttempt env recipient subject body p with ⟨p1, evs, rr⟩
    cases rr with
    | ok u => cases u; exact ⟨true, by simp [sendLoop, ha]⟩
    | error m =>
      by_cases heq : attempt = maxA
      · subst heq; exact ⟨false, by simp [sendLoop, ha, hSS]⟩
      · have hbeq : (attempt == maxA) = false := by simp [heq]
        obtain ⟨b, hb⟩ := ih (attempt + 1) p1 (by omega) (by omega)
        refine ⟨b, ?_⟩
        simp only [sendLoop, ha, hbeq, Bool.false_eq_true, if_false]
        exact hb

/-- Helper: the send loop starts at most `remaining` attempts. -/
theorem sendLoop_countAS (env : Env) (recipient subject body : String)
    (maxA : Nat) :
    ∀ (remaining attempt : Nat) (p : Page),
      ((sendLoop env recipient subject body maxA remaining attempt p).2.1).countP
        isAttemptStart ≤ remaining := by
  intro remaining
  induction remaining with
  | zero => intro attempt p; simp [sendLoop]
  | succ r ih =>
    intro attempt p
    rcases ha : composeAttempt env recipient subject body p with ⟨p1, evs, rr⟩
    have hz : evs.countP isAttemptStart = 0 := by
      apply countAS_zero_of_inner
      have h := composeAttempt_inner env recipient subject body p
      rw [ha] at h; exact h
    have htc : (tryCloseDialog env).countP isAttemptStart = 0 :=
      countAS_zero_of_inner (tryCloseDialog_inner env)
    cases rr with
    | ok u =>
      cases u
      simp [sendLoop, ha, List.countP_cons, hz, isAttemptStart]
    | error m =>
      by_cases heq : attempt = maxA
      · subst heq
        cases hss : env.screenshotRaises <;>
          simp [sendLoop, ha, hss, List.countP_cons, List.countP_append, hz,
            htc, isAttemptStart]
      · have hbeq : (attempt == maxA) = false := by simp [heq]
        have hrec := ih (attempt + 1) p1
        simp only [sendLoop, ha, hbeq, Bool.false_eq_true, if_false]
        simp [List.countP_cons, List.countP_append, hz, htc, isAttemptStart]
        omega

/-- Helper: when every attempt fails identically with the page preserved
and the except-handler driver calls do not raise, the login loop runs
exactly `remaining` attempts, ends with the one screenshot, and reports
`false`. -/
theorem loginLoop_allFail (env : Env) (email password : String) (maxA : Nat)
    (m : String) (evs : List Ev) (p : Page)
    (ha : loginAttempt env email password p = (p, evs, Except.error m))
    (hAS : evs.countP isAttemptStart = 0) (hSS : evs.countP isScreenshot = 0)
    (hssr : env.screenshotRaises = false) (hckr : env.cookiesRaises = false) :
    ∀ (remaining attempt : Nat), 1 ≤ remaining →
      attempt + remaining = maxA + 1 →
      (loginLoop env email password maxA remaining attempt p).2.2 =
        Except.ok (some false) ∧
      ∃ pre, (loginLoop env email password maxA remaining attempt p).2.1 =
          pre ++ [Ev.screenshot "login_failure.png"] ∧
        pre.countP isAttemptStart = remaining ∧ pre.countP isScreenshot = 0 := by
  intro remaining
  induction remaining with
  | zero => intro attempt h _; exact absurd h (by omega)
  | succ r ih =>
    intro attempt _ hsum
    by_cases heq : attempt = maxA
    · have hbeq : (attempt == maxA) = true := by simp [heq]
      have hr0 : r = 0 := by omega
      subst hr0
      refine ⟨by simp [loginLoop, ha, hbeq, hssr], ?_⟩
      refine ⟨Ev.attemptStart "login" attempt maxA :: evs ++
        [Ev.log ("Login attempt " ++ toString attempt ++ " failed: " ++ m)],
        ?_, ?_, ?_⟩
      · simp [loginLoop, ha, hbeq, hssr]
      · simp [List.countP_cons, List.countP_append, hAS, isAttemptStart]
      · simp [List.countP_cons, List.countP_append, hSS, isScreenshot]
    · have hbeq : (attempt == maxA) = false := by simp [heq]
      obtain ⟨hres, pre, htr, hpAS, hpSS⟩ := ih (attempt + 1) (by omega) (by omega)
      refine ⟨?_, ?_⟩
      · simp only [loginLoop, ha, hbeq, Bool.false_eq_true, if_false, hckr]
        exact hres
      · refine ⟨Ev.attemptStart "login" attempt maxA :: evs ++
          [Ev.log ("Login attempt " ++ toString attempt ++ " failed: " ++ m)] ++
          Ev.deleteCookies :: pre, ?_, ?_, ?_⟩
        · simp only [loginLoop, ha, hbeq, Bool.false_eq_true, if_false, hckr]
          rw [htr]
          simp
        · simp [List.countP_cons, List.countP_append, hAS, hpAS, isAttemptStart]
        · simp [List.countP_cons, List.countP_append, hSS, hpSS, isScreenshot]

/-- Helper: when every attempt fails identically with the page preserved
and the screenshot call does not raise, the send loop runs exactly
`remaining` attempts, ends with the one screenshot, and reports
`false`. -/
theorem sendLoop_allFail (env : Env) (recipient subject body : String)
    (maxA : Nat) (m : String) (evs : List Ev) (p : Page)
    (ha : composeAttempt env recipient subject body p = (p, evs, Except.error m))
    (hAS : evs.countP isAttemptStart = 0) (hSS : evs.countP isScreenshot = 0)
    (hssr : env.screenshotRaises = false) :
    ∀ (remaining attempt : Nat), 1 ≤ remaining →
      attempt + remaining = maxA + 1 →
      (sendLoop env recipient subject body maxA remaining attempt p).2.2 =
        Except.ok (some false) ∧
      ∃ pre, (sendLoop env recipient subject body maxA remaining attempt p).2.1 =
          pre ++ [Ev.screenshot "send_email_failure.png"] ∧
        pre.countP isAttemptStart = remaining ∧ pre.countP isScreenshot = 0 := by
  have htcAS : (tryCloseDialog env).countP isAttemptStart = 0 :=
    countAS_zero_of_inner (tryCloseDialog_inner env)
  have htcSS : (tryCloseDialog env).countP isScreenshot = 0 :=
    countSS_zero_of_inner (tryCloseDialog_inner env)
  intro remaining
  induction remaining with
  | zero => intro attempt h _; exact absurd h (by omega)
  | succ r ih =>
    intro attempt _ hsum
    by_cases heq : attempt = maxA
    · have hbeq : (attempt == maxA) = true := by simp [heq]
      have hr0 : r = 0 := by omega
      subst hr0
      refine ⟨by simp [sendLoop, ha, hbeq, hssr], ?_⟩
      refine ⟨Ev.attemptStart "send" attempt maxA :: evs ++
        [Ev.log ("Email sending attempt " ++ toString attempt ++ " failed: " ++ m)],
        ?_, ?_, ?_⟩
      · simp [sendLoop, ha, hbeq, hssr]
      · simp [List.countP_cons, List.countP_append, hAS, isAttemptStart]
      · simp [List.countP_cons, List.countP_append, hSS, isScreenshot]
    · have hbeq : (attempt == maxA) = false := by simp [heq]
      obtain ⟨hres, pre, htr, hpAS, hpSS⟩ := ih (attempt + 1) (by omega) (by omega)
      refine ⟨?_, ?_⟩
      · simp only [sendLoop, ha, hbeq, Bool.false_eq_true, if_false]
        exact hres
      · refine ⟨Ev.attemptStart "send" attempt maxA :: evs ++
          [Ev.log ("Email sending attempt " ++ toString attempt ++ " failed: " ++ m)] ++
          tryCloseDialog env ++ pre, ?_, ?_, ?_⟩
        · simp only [sendLoop, ha, hbeq, Bool.false_eq_true, if_false]
          rw [htr]
          simp
        · simp [List.countP_cons, List.countP_append, hAS, hpAS, htcAS,
            isAttemptStart]
        · simp [List.countP_cons, List.countP_append, hSS, hpSS, htcSS,
            isScreenshot]

/-- C8 counterexample.  The claim that exhaustion never surfaces as a
raised exception fails on the code: `driver.save_screenshot` in the
except handler (app.py lines 233 and 357) runs outside any `try`, so on
an oracle where it raises, both `login_to_gmail` and
`compose_and_send_email` propagate a `WebDriverException` to the caller
instead of returning `False`. -/
theorem screenshot_raise_propagates_counterexample :
    (login_to_gmail deadScreenshotEnv "u@x.com" "pw" 3 page0).2.2 =
      Except.error "WebDriverException" ∧
    (compose_and_send_email deadScreenshotEnv "r@y.com" "Hi" "Hello" 3
        page0).2.2 =
      Except.error "WebDriverException" :=
  ⟨rfl, rfl⟩

/-- C8 amended.  With any positive attempt budget, all step-level
failures inside an attempt are caught, neither loop starts more than `n`
attempts, and — provided the except-handler driver calls
(`save_screenshot` on the final attempt, `delete_all_cookies` between
login attempts) do not themselves raise — login and send return a boolean
normally (never the fall-off-the-loop `None`, no propagated exception):
exhaustion surfaces only as the boolean failure result.  Those handler
calls run outside any `try`, so their failure does propagate. -/
theorem attempts_bounded_result_boolean :
    ∀ (env : Env) (email password recipient subject body : String) (n : Nat)
      (p : Page), 1 ≤ n →
      env.screenshotRaises = false →
      env.cookiesRaises = false →
      (∃ b, (login_to_gmail env email password n p).2.2 = Except.ok (some b)) ∧
      ((login_to_gmail env email password n p).2.1).countP isAttemptStart ≤ n ∧
      (∃ b, (compose_and_send_email env recipient subject body n p).2.2 =
        Except.ok (some b)) ∧
      ((compose_and_send_email env recipient subject body n p).2.1).countP
        isAttemptStart ≤ n := by
  intro env email password recipient subject body n p hn hss hck
  exact ⟨loginLoop_ok env email password n hss hck n 1 p hn (by omega),
    loginLoop_countAS env email password n n 1 p,
    sendLoop_ok env recipient subject body n hss n 1 p hn (by omega),
    sendLoop_countAS env recipient subject body n n 1 p⟩

/-- C8 witness: three attempts on the never-resolving oracle, whose
handler driver calls behave. -/
theorem attempts_bounded_result_boolean_witness :
    (∃ b, (login_to_gmail noResolveEnv "u@x.com" "pw" 3 page0).2.2 =
      Except.ok (some b)) ∧
    ((login_to_gmail noResolveEnv "u@x.com" "pw" 3 page0).2.1).countP
      isAttemptStart ≤ 3 ∧
    (∃ b, (compose_and_send_email noResolveEnv "r@y.com" "Hi" "Hello" 3
        page0).2.2 = Except.ok (some b)) ∧
    ((compose_and_send_email noResolveEnv "r@y.com" "Hi" "Hello" 3 page0).2.1).countP
      isAttemptStart ≤ 3 :=
  attempts_bounded_result_boolean noResolveEnv "u@x.com" "pw" "r@y.com" "Hi" "Hello"
    3 page0 (by decide) rfl rfl

/-- C4.  With `max_attempts = 3`, an oracle on which no element ever
resolves, and a driver whose diagnostic calls work (the scenario's
screenshot is actually captured), login performs exactly 3 attempts,
reports `false`, and captures exactly one screenshot, to
`login_failure.png`, as the very last operation after the 3rd attempt —
none on any earlier attempt; send behaves identically with
`send_email_failure.png`. -/
theorem three_attempts_one_screenshot :
    ∀ (env : Env) (email password recipient subject body : String) (p : Page),
      (∀ sc s, env.resolveVisible sc s = none) →
      (∀ sc l, env.resolveClickable sc l = none) →
      env.screenshotRaises = false →
      env.cookiesRaises = false →
      (login_to_gmail env email password 3 p).2.2 = Except.ok (some false) ∧
      (∃ pre, (login_to_gmail env email password 3 p).2.1 =
          pre ++ [Ev.screenshot "login_failure.png"] ∧
        pre.countP isAttemptStart = 3 ∧ pre.countP isScreenshot = 0) ∧
      (compose_and_send_email env recipient subject body 3 p).2.2 =
        Except.ok (some false) ∧
      (∃ pre, (compose_and_send_email env recipient subject body 3 p).2.1 =
          pre ++ [Ev.screenshot "send_email_failure.png"] ∧
        pre.countP isAttemptStart = 3 ∧ pre.countP isScreenshot = 0) := by
  intro env email password recipient subject body p hRV hRC hssr hckr
  obtain ⟨m, evs, ha⟩ := loginAttempt_noResolve env email password p hRV
  have hin : ∀ ev ∈ evs, innerEv ev = true := by
    have h := loginAttempt_inner env email password p
    rw [ha] at h; exact h
  obtain ⟨hres, pre, htr, h1, h2⟩ :=
    loginLoop_allFail env email password 3 m evs p ha
      (countAS_zero_of_inner hin) (countSS_zero_of_inner hin) hssr hckr 3 1
      (by omega) (by omega)
  have hb := composeAttempt_noResolve env recipient subject body p hRC
  have hbin : ∀ ev ∈ [Ev.waitClickable none composeLocator none],
      innerEv ev = true := by decide
  obtain ⟨hres2, pre2, htr2, h12, h22⟩ :=
    sendLoop_allFail env recipient subject body 3 "TimeoutException"
      [Ev.waitClickable none composeLocator none] p hb
      (countAS_zero_of_inner hbin) (countSS_zero_of_inner hbin) hssr 3 1
      (by omega) (by omega)
  exact ⟨hres, ⟨pre, htr, h1, h2⟩, hres2, ⟨pre2, htr2, h12, h22⟩⟩

/-- C4 witness: the never-resolving oracle. -/
theorem three_attempts_one_screenshot_witness :
    (login_to_gmail noResolveEnv "u@x.com" "pw" 3 page0).2.2 =
      Except.ok (some false) ∧
    (∃ pre, (login_to_gmail noResolveEnv "u@x.com" "pw" 3 page0).2.1 =
        pre ++ [Ev.screenshot "login_failure.png"] ∧
      pre.countP isAttemptStart = 3 ∧ pre.countP isScreenshot = 0) ∧
    (compose_and_send_email noResolveEnv "r@y.com" "Hi" "Hello" 3 page0).2.2 =
      Except.ok (some false) ∧
    (∃ pre,
      (compose_and_send_email noResolveEnv "r@y.com" "Hi" "Hello" 3 page0).2.1 =
        pre ++ [Ev.screenshot "send_email_failure.png"] ∧
      pre.countP isAttemptStart = 3 ∧ pre.countP isScreenshot = 0) :=
  three_attempts_one_screenshot noResolveEnv "u@x.com" "pw" "r@y.com" "Hi" "Hello"
    page0 (fun _ _ => rfl) (fun _ _ => rfl) rfl rfl

/-- Helper: wait events on a locator other than `passwordNext` never
mention the submit control. -/
theorem mentionsSubmit_waitClickable (scope : Option Nat) (l : Locator)
    (r : Option Nat) (h : l ≠ Locator.id "passwordNext") :
    mentionsSubmit (Ev.waitClickable scope l r) = false := by
  cases l with
  | id s =>
    have hs : s ≠ "passwordNext" := fun hh => h (by rw [hh])
    simp [mentionsSubmit, hs]
  | css s => rfl
  | xpath s => rfl

/-- Helper: click events on a locator other than `passwordNext` never
mention the submit control. -/
theorem mentionsSubmit_click (l : Locator) (e : Nat) (b : Bool)
    (h : l ≠ Locator.id "passwordNext") :
    mentionsSubmit (Ev.click l e b) = false := by
  cases l with
  | id s =>
    have hs : s ≠ "passwordNext" := fun hh => h (by rw [hh])
    simp [mentionsSubmit, hs]
  | css s => rfl
  | xpath s => rfl

/-- Helper: the next-button cascade never touches the submit control. -/
theorem clickCascade_next_noSubmit (env : Env) (scope : Option Nat) :
    ∀ ev ∈ (clickCascade env scope nextButtons).1, mentionsSubmit ev = false := by
  intro ev hev
  obtain ⟨l, hl, h | h⟩ := clickCascade_shape env scope nextButtons ev hev
  · obtain ⟨r, rfl⟩ := h
    refine mentionsSubmit_waitClickable scope l r ?_
    fin_cases hl <;> decide
  · obtain ⟨e, b, rfl⟩ := h
    refine mentionsSubmit_click l e b ?_
    fin_cases hl <;> decide

/-- Helper: when no password selector ever resolves, a login attempt
fails and none of its events touches the submit control. -/
theorem loginAttempt_pwBlocked (env : Env) (email password : String) (p : Page)
    (hP : ∀ s ∈ passwordSelectors, env.resolveVisible none s = none) :
    (∃ m, (loginAttempt env email password p).2.2 = Except.error m) ∧
    ∀ ev ∈ (loginAttempt env email password p).2.1, mentionsSubmit ev = false := by
  have h0 : ∀ ev ∈ (loadGmail env urls).1, mentionsSubmit ev = false := by
    intro ev hev; obtain ⟨u, rfl⟩ := loadGmail_gets env urls ev hev; rfl
  rcases hl : loadGmail env urls with ⟨evs0, r0⟩
  rw [hl] at h0; simp only at h0
  cases r0 with
  | error m =>
    exact ⟨⟨m, by simp only [loginAttempt, hl]⟩,
      by simpa only [loginAttempt, hl] using h0⟩
  | ok u =>
    cases u
    have h1 : ∀ ev ∈ (typeCascade env none email "email" emailSelectors p).2.1,
        mentionsSubmit ev = false :=
      fun ev hev => (fieldEv_props ev
        (typeCascade_fieldEv_mem env none email "email" emailSelectors p ev hev)).2
    rcases he : typeCascade env none email "email" emailSelectors p with ⟨p1, evs1, r1⟩
    rw [he] at h1; simp only at h1
    cases r1 with
    | none =>
      refine ⟨⟨"Could not enter email address", by simp only [loginAttempt, hl, he]⟩, ?_⟩
      simp only [loginAttempt, hl, he]
      exact List.forall_mem_append.mpr ⟨h0, h1⟩
    | some e1 =>
      have h2 := clickCascade_next_noSubmit env none
      rcases hn : clickCascade env none nextButtons with ⟨evs2, r2⟩
      rw [hn] at h2; simp only at h2
      cases r2 with
      | none =>
        refine ⟨⟨"Could not click next button", by simp only [loginAttempt, hl, he, hn]⟩, ?_⟩
        simp only [loginAttempt, hl, he, hn]
        exact List.forall_mem_append.mpr ⟨List.forall_mem_append.mpr ⟨h0, h1⟩, h2⟩
      | some e2 =>
        have hpw := typeCascade_resolve_none env none password "password"
          passwordSelectors p1 hP
        have h3 : ∀ ev ∈ passwordSelectors.map (fun s => Ev.waitVisible none s none),
            mentionsSubmit ev = false := by
          intro ev hev
          simp only [List.mem_map] at hev
          obtain ⟨s, _, rfl⟩ := hev
          rfl
        refine ⟨⟨"Could not enter password", ?_⟩, ?_⟩
        · simp only [loginAttempt, hl, he, hn, hpw]
        · simp only [loginAttempt, hl, he, hn, hpw]
          exact List.forall_mem_append.mpr
            ⟨List.forall_mem_append.mpr ⟨List.forall_mem_append.mpr ⟨h0, h1⟩, h2⟩, h3⟩

/-- Helper: under blocked password resolution, the login loop never
reports success, reports `false` when the except-handler driver calls do
not raise, and its whole trace never touches the submit control. -/
theorem loginLoop_pwBlocked (env : Env) (email password : String) (maxA : Nat)
    (hP : ∀ s ∈ passwordSelectors, env.resolveVisible none s = none) :
    ∀ (remaining attempt : Nat) (p : Page), 1 ≤ remaining →
      attempt + remaining = maxA + 1 →
      (env.screenshotRaises = false → env.cookiesRaises = false →
        (loginLoop env email password maxA remaining attempt p).2.2 =
          Except.ok (some false)) ∧
      (loginLoop env email password maxA remaining attempt p).2.2 ≠
        Except.ok (some true) ∧
      ∀ ev ∈ (loginLoop env email password maxA remaining attempt p).2.1,
        mentionsSubmit ev = false := by
  intro remaining
  induction remaining with
  | zero => intro attempt p h _; exact absurd h (by omega)
  | succ r ih =>
    intro attempt p _ hsum
    obtain ⟨⟨m, hm⟩, hevs⟩ := loginAttempt_pwBlocked env email password p hP
    rcases ha : loginAttempt env email password p with ⟨p1, evs, rr⟩
    rw [ha] at hm hevs; simp only at hm hevs
    subst hm
    by_cases heq : attempt = maxA
    · have hbeq : (attempt == maxA) = true := by simp [heq]
      cases hss : env.screenshotRaises with
      | true =>
        refine ⟨?_, ?_, ?_⟩
        · intro h1 _
          exact absurd h1 (by simp)
        · simp [loginLoop, ha, hbeq, hss]
        · simp only [loginLoop, ha, hbeq, hss, if_true]
          intro ev hev
          simp only [List.mem_append, List.mem_cons, List.mem_singleton,
            List.not_mem_nil, or_false, false_or] at hev
          rcases hev with ((rfl | hev) | rfl) | rfl
          · rfl
          · exact hevs ev hev
          · rfl
          · rfl
      | false =>
        refine ⟨?_, ?_, ?_⟩
        · intro _ _
          simp [loginLoop, ha, hbeq, hss]
        · simp [loginLoop, ha, hbeq, hss]
        · simp only [loginLoop, ha, hbeq, if_true, hss, Bool.false_eq_true,
            if_false]
          intro ev hev
          simp only [List.mem_append, List.mem_cons, List.mem_singleton,
            List.not_mem_nil, or_false, false_or] at hev
          rcases hev with ((rfl | hev) | rfl) | rfl
          · rfl
          · exact hevs ev hev
          · rfl
          · rfl
    · have hbeq : (attempt == maxA) = false := by simp [heq]
      cases hck : env.cookiesRaises with
      | true =>
        refine ⟨?_, ?_, ?_⟩
        · intro _ h2
          exact absurd h2 (by simp)
        · simp [loginLoop, ha, hbeq, hck]
        · simp only [loginLoop, ha, hbeq, Bool.false_eq_true, if_false, hck,
            if_true]
          intro ev hev
          simp only [List.mem_append, List.mem_cons, List.mem_singleton,
            List.not_mem_nil, or_false, false_or] at hev
          rcases hev with ((rfl | hev) | rfl) | rfl
          · rfl
          · exact hevs ev hev
          · rfl
          · rfl
      | false =>
        obtain ⟨iha, ihb, ihc⟩ := ih (attempt + 1) p1 (by omega) (by omega)
        refine ⟨?_, ?_, ?_⟩
        · intro h1 _
          simp only [loginLoop, ha, hbeq, Bool.false_eq_true, if_false, hck]
          exact iha h1 hck
        · simp only [loginLoop, ha, hbeq, Bool.false_eq_true, if_false, hck]
          exact ihb
        · simp only [loginLoop, ha, hbeq, Bool.false_eq_true, if_false, hck]
          intro ev hev
          simp only [List.mem_append, List.mem_cons, List.mem_singleton,
            List.not_mem_nil, or_false, false_or] at hev
          rcases hev with ((rfl | hev) | rfl) | (rfl | hev)
          · rfl
          · exact hevs ev hev
          · rfl
          · rfl
          · exact ihc ev hev

/-- C5.  If no password-field selector ever resolves, login never reports
success — it reports failure (`false`) whenever the except-handler driver
calls do not raise — and no event of the whole run touches the submit
control: the `passwordNext` locator is neither waited for nor clicked, so
the submit-click step is never reached without a successful password
entry (the submit cascade always begins by waiting on `passwordNext`). -/
theorem password_unresolved_never_submits :
    ∀ (env : Env) (email password : String) (n : Nat) (p : Page), 1 ≤ n →
      (∀ s ∈ passwordSelectors, env.resolveVisible none s = none) →
      (env.screenshotRaises = false → env.cookiesRaises = false →
        (login_to_gmail env email password n p).2.2 = Except.ok (some false)) ∧
      (login_to_gmail env email password n p).2.2 ≠ Except.ok (some true) ∧
      ∀ ev ∈ (login_to_gmail env email password n p).2.1,
        mentionsSubmit ev = false := by
  intro env email password n p hn hP
  exact loginLoop_pwBlocked env email password n hP n 1 p hn (by omega)

/-- C5 witness: the never-resolving oracle, three attempts, with the
inner implication discharged as well. -/
theorem password_unresolved_never_submits_witness :
    (login_to_gmail noResolveEnv "u@x.com" "pw" 3 page0).2.2 =
      Except.ok (some false) ∧
    ∀ ev ∈ (login_to_gmail noResolveEnv "u@x.com" "pw" 3 page0).2.1,
      mentionsSubmit ev = false :=
  ⟨(password_unresolved_never_submits noResolveEnv "u@x.com" "pw" 3 page0
      (by decide) (fun s _ => rfl)).1 rfl rfl,
   (password_unresolved_never_submits noResolveEnv "u@x.com" "pw" 3 page0
      (by decide) (fun s _ => rfl)).2.2⟩

/-- C3 counterexample.  On an oracle where no element resolves, the email
resolution step fails: the raised error is the fixed step message
`Could not enter email address`, which does not name the attempted
candidates — not even the first candidate selector appears in it, refuting
the claim that the failure report names all attempted candidates. -/
theorem resolver_failure_report_counterexample :
    (loginAttempt noResolveEnv "u@x.com" "pw" page0).2.2 =
      Except.error "Could not enter email address" ∧
    containsSub "Could not enter email address" "input[type=\"email\"]" = false :=
  ⟨rfl, rfl⟩

/-- C3 amended.  When no candidate of a cascade resolves, the cascade
attempts every candidate in order, emits exactly the failed waits, returns
no element and leaves the page state unchanged; the enclosing attempt then
raises a step-level error naming the failed step (for the email field,
`Could not enter email address`) — not the individual candidates — and the
page state is returned unchanged. -/
theorem resolver_failure_amended :
    ∀ (env : Env) (email password text fieldName : String) (scope : Option Nat)
      (sels : List String) (p : Page),
      (∀ sc s, env.resolveVisible sc s = none) →
      env.navOk "https://mail.google.com" = true →
      containsSub (env.currentUrl "https://mail.google.com") "mail.google.com"
        = true →
      typeCascade env scope text fieldName sels p =
        (p, sels.map (fun s => Ev.waitVisible scope s none), none) ∧
      (loginAttempt env email password p).2.2 =
        Except.error "Could not enter email address" ∧
      (loginAttempt env email password p).1 = p := by
  intro env email password text fieldName scope sels p hRV hnav hcur
  have hload : loadGmail env urls =
      ([Ev.get "https://mail.google.com"], Except.ok ()) := by
    simp [loadGmail, urls, hnav, hcur]
  have he := typeCascade_resolve_none env none email "email" emailSelectors p
    (fun s _ => hRV none s)
  refine ⟨typeCascade_resolve_none env scope text fieldName sels p
    (fun s _ => hRV scope s), ?_, ?_⟩
  · simp only [loginAttempt, hload, he]
  · simp only [loginAttempt, hload, he]

/-- C3 amended witness: the never-resolving oracle. -/
theorem resolver_failure_amended_witness :
    typeCascade noResolveEnv none "x" "f" ["a"] page0 =
      (page0, [Ev.waitVisible none "a" none], none) ∧
    (loginAttempt noResolveEnv "u@x.com" "pw" page0).2.2 =
      Except.error "Could not enter email address" ∧
    (loginAttempt noResolveEnv "u@x.com" "pw" page0).1 = page0 :=
  resolver_failure_amended noResolveEnv "u@x.com" "pw" "x" "f" none ["a"] page0
    (fun _ _ => rfl) rfl rfl

end GmailAuto
